import Mathlib

/-!
Shallow embedding of the image-retrieval service's core (src/app/api.py and
src/app/utils.py): the /search endpoint, the /feedback relevance-refinement
endpoint, and the vector helpers they use.  External collaborators (the
embedding model, the vector index, the session store) are modelled as
explicit parameters: the session store is the `Option Vec` threaded through
each endpoint, the index is a ranking function returning the similarity-ordered
candidate list (Weaviate applies a filter and a limit on top of that order,
modelled by filter-then-take), and per-item fetches return a `FetchOutcome`.
Vector components are real numbers; Python float arithmetic is modelled by
exact real arithmetic (the 1e-12 epsilon of l2norm_np is kept literally).
-/

namespace ImageRetrieval

noncomputable section

/-! ### Python string primitives (ASCII model of str.lower/str.strip/`in`) -/

/-- Characters removed by Python's str.strip(). -/
def pySpaceChar (c : Char) : Bool :=
  (c == ' ') || (c == '\t') || (c == '\n') || (c == '\r') || (c == '\x0B') || (c == '\x0C')

/-- Python str.strip(): drop leading and trailing whitespace. -/
def pyStripChars (l : List Char) : List Char :=
  ((l.dropWhile pySpaceChar).reverse.dropWhile pySpaceChar).reverse

/-- ASCII case folding, as str.lower() acts on the ASCII keywords involved. -/
def pyLowerChar (c : Char) : Char :=
  if 'A' ≤ c ∧ c ≤ 'Z' then Char.ofNat (c.toNat + 32) else c

/-- Python str.lower() on a string. -/
def pyLower (s : String) : String :=
  String.mk (s.data.map pyLowerChar)

/-- Does the second list start with the first one? -/
def listStartsWith : List Char → List Char → Bool
  | [], _ => true
  | _ :: _, [] => false
  | a :: as, b :: bs => (a == b) && listStartsWith as bs

/-- Occurrence of `needle` as a contiguous run inside the list. -/
def listHasSub (needle : List Char) : List Char → Bool
  | [] => listStartsWith needle []
  | c :: rest => listStartsWith needle (c :: rest) || listHasSub needle rest

/-- Python's `needle in hay` on strings. -/
def pyContains (hay needle : String) : Bool :=
  listHasSub needle.data hay.data

/-- Python truthiness of a string: non-empty. -/
def strTruthy (s : String) : Bool := !(s == "")

/-! ### Vector math (app/utils.py and numpy helpers used in api.py) -/

/-- An embedding vector: ordered sequence of (model) real components. -/
abbrev Vec := List ℝ

/-- Elementwise vector addition (numpy +; operands have equal length). -/
def vadd (a b : Vec) : Vec := List.zipWith (· + ·) a b

/-- Scalar multiple (numpy scalar * vector). -/
def smul (c : ℝ) (v : Vec) : Vec := v.map (fun x => c * x)

/-- Sum of squares of the components. -/
def norm2 (v : Vec) : ℝ := (v.map (fun x => x * x)).sum

/-- np.linalg.norm: the L2 norm. -/
def normL2 (v : Vec) : ℝ := Real.sqrt (norm2 v)

/-- The literal 1e-12 added to the norm in l2norm_np. -/
def eps : ℝ := 1 / 1000000000000

/-- app/utils.py l2norm_np: divide by the L2 norm plus 1e-12 (the float32
cast is the identity in this real-valued model). -/
def l2norm_np (v : Vec) : Vec :=
  v.map (fun x => x / (normL2 v + eps))

/-- Sum of a non-empty stack of vectors (np.stack then summation); [] for []. -/
def vsum : List Vec → Vec
  | [] => []
  | v :: vs => vs.foldl vadd v

/-- np.mean(np.stack(vecs), axis=0): elementwise arithmetic mean. -/
def vecMean (vs : List Vec) : Vec :=
  smul (1 / (vs.length : ℝ)) (vsum vs)

/-! ### Data model -/

/-- Outcome of SearchIndex.fetch_object_by_id for one identifier: the call
raises, returns no object, or returns an object whose vector and species
properties may each be missing (Python-falsy values are `none`). -/
inductive FetchOutcome where
  | failure
  | missing
  | found (vector : Option Vec) (species : Option String)

/-- An object stored in the index as the near-vector query returns it:
identifier, query metadata and stored attributes. -/
structure StoredObject where
  uuid : String
  certainty : Option ℚ
  distance : Option ℚ
  file : Option String
  caption : Option String
  species : Option String

/-- One entry of a result list: id, score and the attribute bag. -/
structure RankedItem where
  id : String
  score : ℚ
  file : Option String
  caption : Option String
  species : Option String

/-- The external collaborators of one request: the text encoder of the model
in use, per-id vector fetch, and the near-vector ranking of the index
(similarity order; the caller's filter and limit are applied on top of it). -/
structure Env where
  encodeText : String → Vec
  fetch : String → FetchOutcome
  nearVector : Vec → Except String (List StoredObject)

/-- The /search request body (fields the core logic reads). -/
structure SearchRequest where
  session_id : String
  query_text : Option String
  query_image_vector : Option Vec
  top_k : Int

/-- The /search response body. -/
structure SearchResponse where
  results : List RankedItem
  used_vector : Vec

/-- The /feedback request body; gamma is carried but never read downstream. -/
structure FeedbackRequest where
  session_id : String
  feedback_text : Option String
  liked_image_ids : List String
  disliked_image_ids : List String
  w_text : ℝ
  w_like : ℝ
  alpha : ℝ
  gamma : ℝ
  top_k : Int

/-- The /feedback response body. -/
structure FeedbackResponse where
  results : List RankedItem
  refined_vector : Vec
  turn_feedback_vector : Vec

/-- The error taxonomy the two endpoints surface. -/
inductive ApiError where
  | inputError
  | precursorMissing
  | queryError (msg : String)

/-- Is an Except value a success? -/
def isOkE {ε α : Type} : Except ε α → Bool
  | Except.ok _ => true
  | Except.error _ => false

/-! ### Result construction (shared by /search and /feedback) -/

/-- Python truthiness of an optional float metadata value: present and nonzero. -/
def truthyNum (x : Option ℚ) : Bool :=
  match x with
  | none => false
  | some q => q != 0

/-- score = certainty if truthy else (1 - distance) if truthy else 0.0. -/
def scoreOf (o : StoredObject) : ℚ :=
  if truthyNum o.certainty = true then o.certainty.getD 0
  else if truthyNum o.distance = true then 1 - o.distance.getD 0
  else 0

/-- The result dict built from one returned object. -/
def mkItem (o : StoredObject) : RankedItem :=
  ⟨o.uuid, scoreOf o, o.file, o.caption, o.species⟩

/-- Weaviate filter semantics: no filter accepts everything; a species list
(equal for one entry, any_of for several) accepts objects whose species
property equals one of the listed labels. -/
def objMatches (filt : Option (List String)) (o : StoredObject) : Bool :=
  match filt with
  | none => true
  | some ss =>
    match o.species with
    | some s => ss.contains s
    | none => false

/-! ### /search (api.py lines 90-177) -/

/-- The keyword-to-species table of the search endpoint, in source order. -/
def speciesKeywords : List (String × String) :=
  [("cat", "cat"), ("cats", "cat"), ("kitten", "cat"), ("feline", "cat"),
   ("dog", "dog"), ("dogs", "dog"), ("puppy", "dog"), ("canine", "dog"),
   ("bird", "bird"), ("birds", "bird"),
   ("horse", "horse"), ("horses", "horse"),
   ("cow", "cow"), ("cows", "cow"), ("cattle", "cow"),
   ("sheep", "sheep"),
   ("elephant", "elephant"), ("elephants", "elephant"),
   ("butterfly", "butterfly"), ("butterflies", "butterfly")]

/-- The for-loop with break: the species of the first table entry whose
keyword occurs as a substring of the lowercased query. -/
def firstSpeciesMatch (q : String) : Option String :=
  (speciesKeywords.find? (fun kv => pyContains q kv.1)).map Prod.snd

/-- query_lower = req.query_text.lower() if req.query_text else "". -/
def queryLowerOf (req : SearchRequest) : String :=
  match req.query_text with
  | some s => if strTruthy s = true then pyLower s else ""
  | none => ""

/-- Query-vector selection: the image vector when not None, else the encoded
text when truthy, else nothing (the 400 case). -/
def chooseQv? (env : Env) (req : SearchRequest) : Option Vec :=
  match req.query_image_vector with
  | some v => some v
  | none =>
    match req.query_text with
    | some s => if strTruthy s = true then some (env.encodeText s) else none
    | none => none

/-- The /search endpoint: returns the response or error, and the session
slot after the call (written only on query success). -/
def search (env : Env) (req : SearchRequest) (store : Option Vec) :
    Except ApiError SearchResponse × Option Vec :=
  match chooseQv? env req with
  | none => (Except.error ApiError.inputError, store)
  | some qv0 =>
    let qv := l2norm_np qv0
    let filt := (firstSpeciesMatch (queryLowerOf req)).map (fun s => [s])
    match env.nearVector qv with
    | Except.error e => (Except.error (ApiError.queryError e), store)
    | Except.ok ranked =>
        (Except.ok ⟨((ranked.filter (objMatches filt)).take req.top_k.toNat).map mkItem, qv⟩,
         some qv)

/-! ### /feedback (api.py lines 261-421) -/

/-- has_text_feedback = req.feedback_text and req.feedback_text.strip(). -/
def hasTextFeedback : Option String → Bool
  | none => false
  | some s => !(pyStripChars s.data).isEmpty

/-- The validation condition: no liked ids, no disliked ids, no usable text. -/
def noContent (req : FeedbackRequest) : Bool :=
  req.liked_image_ids.isEmpty && req.disliked_image_ids.isEmpty &&
    !(hasTextFeedback req.feedback_text)

/-- The liked/disliked fetch loop: walk the id list, skip falsy ids, skip
failed fetches and objects without a vector, collect the vectors in order
and the truthy species labels (a Python set; only membership and emptiness
of it are ever consumed, so a list is an equivalent model). -/
def collectFeedbackVectors (fetch : String → FetchOutcome) :
    List String → List Vec × List String
  | [] => ([], [])
  | uid :: rest =>
    let r := collectFeedbackVectors fetch rest
    if uid = "" then r
    else
      match fetch uid with
      | FetchOutcome.found (some v) sp =>
          (v :: r.1,
           match sp with
           | some s => if s = "" then r.2 else s :: r.2
           | none => r.2)
      | _ => r

/-- v_like: the mean of the fetched liked vectors, None when none was fetched. -/
def vLikeOf (fetch : String → FetchOutcome) (ids : List String) : Option Vec :=
  let vecs := (collectFeedbackVectors fetch ids).1
  if vecs.isEmpty then none else some (vecMean vecs)

/-- liked_species as collected by the liked fetch loop. -/
def likedSpeciesOf (fetch : String → FetchOutcome) (ids : List String) : List String :=
  (collectFeedbackVectors fetch ids).2

/-- v_text: the encoded feedback text when has_text_feedback holds. -/
def vTextOf (env : Env) (req : FeedbackRequest) : Option Vec :=
  if hasTextFeedback req.feedback_text = true then
    some (env.encodeText (req.feedback_text.getD ""))
  else none

/-- v_turn: the fusion match of api.py lines 334-340. -/
def vTurnOf (env : Env) (req : FeedbackRequest) : Option Vec :=
  match vTextOf env req, vLikeOf env.fetch req.liked_image_ids with
  | some t, some l => some (l2norm_np (vadd (smul req.w_text t) (smul req.w_like l)))
  | some t, none => some (l2norm_np t)
  | none, some l => some (l2norm_np l)
  | none, none => none

/-- v_new: blend with the session's previous vector (api.py lines 343-346). -/
def vNewOf (env : Env) (req : FeedbackRequest) (prev : Vec) : Vec :=
  match vTurnOf env req with
  | some vt => l2norm_np (vadd (smul (1 - req.alpha) prev) (smul req.alpha vt))
  | none => prev

/-- search_filter: lock to the liked species when any were collected. -/
def feedbackFilter (env : Env) (req : FeedbackRequest) : Option (List String) :=
  if (likedSpeciesOf env.fetch req.liked_image_ids).isEmpty then none
  else some (likedSpeciesOf env.fetch req.liked_image_ids)

/-- fetch_limit = req.top_k + len(req.disliked_image_ids) * 2. -/
def feedbackFetchLimit (req : FeedbackRequest) : Int :=
  req.top_k + (req.disliked_image_ids.length : Int) * 2

/-- The post-filter loop (api.py lines 397-415): skip disliked ids, append,
break once len(results) >= top_k.  Note the loop appends before it checks,
so top_k <= 0 still lets one item through. -/
def takeFiltered (dis : List String) : Int → List StoredObject → List RankedItem
  | _, [] => []
  | k, o :: rest =>
    if dis.contains o.uuid then takeFiltered dis k rest
    else mkItem o :: (if k ≤ 1 then [] else takeFiltered dis (k - 1) rest)

/-- The filtered, truncated result list of the feedback re-query. -/
def feedbackResults (env : Env) (req : FeedbackRequest) (ranked : List StoredObject) :
    List RankedItem :=
  takeFiltered req.disliked_image_ids req.top_k
    ((ranked.filter (objMatches (feedbackFilter env req))).take (feedbackFetchLimit req).toNat)

/-- The /feedback endpoint: validation, fusion, blend, the session write
(which the source performs before the re-query), then the re-query and
post-filter.  v_dislike is computed in the source only to be logged, so it
has no counterpart here.  The second component is the session slot after
the call. -/
def feedback (env : Env) (req : FeedbackRequest) (store : Option Vec) :
    Except ApiError FeedbackResponse × Option Vec :=
  if noContent req = true then (Except.error ApiError.inputError, store)
  else
    match store with
    | none => (Except.error ApiError.precursorMissing, none)
    | some prev_v =>
      let v_new := vNewOf env req prev_v
      match env.nearVector v_new with
      | Except.error e => (Except.error (ApiError.queryError e), some v_new)
      | Except.ok ranked =>
          (Except.ok ⟨feedbackResults env req ranked, v_new, (vTurnOf env req).getD v_new⟩,
           some v_new)

/-! ### Spec-side definitions (written from the spec's words, for the
refinement comparisons; each one restates a spec rule independently of the
loop-shaped source translation above) -/

/-- Spec rule 5 (fuse positive signal): both present means a normalized
weighted sum, exactly one present means that vector normalized, neither
present means no turn vector. -/
def fuseTurn (wText wLike : ℝ) : Option Vec → Option Vec → Option Vec
  | some t, some l => some (l2norm_np (vadd (smul wText t) (smul wLike l)))
  | some t, none => some (l2norm_np t)
  | none, some l => some (l2norm_np l)
  | none, none => none

/-- Spec rule 6 (blend with history): normalize((1-alpha)*V_prev + alpha*v_turn)
when a turn vector exists, else V_prev unchanged. -/
def blendHistory (alpha : ℝ) (prev : Vec) : Option Vec → Vec
  | some vt => l2norm_np (vadd (smul (1 - alpha) prev) (smul alpha vt))
  | none => prev

/-- Spec rule 3, declaratively: the vectors of the liked ids that are
non-empty and fetch successfully with a vector. -/
def fetchedVectors (fetch : String → FetchOutcome) (ids : List String) : List Vec :=
  (ids.filter (fun uid => uid != "")).filterMap (fun uid =>
    match fetch uid with
    | FetchOutcome.found (some v) _ => some v
    | _ => none)

/-- Spec rule 3's aggregate: the arithmetic mean of the fetched vectors,
not renormalized; None when nothing was fetched. -/
def vLikeSpec (fetch : String → FetchOutcome) (ids : List String) : Option Vec :=
  let fetched := fetchedVectors fetch ids
  if fetched.isEmpty then none
  else some (smul (1 / (fetched.length : ℝ)) (vsum fetched))

/-! ### Helper lemmas -/

lemma norm2_nonneg (v : Vec) : 0 ≤ norm2 v := by
  refine List.sum_nonneg ?_
  intro x hx
  obtain ⟨y, _, rfl⟩ := List.mem_map.mp hx
  exact mul_self_nonneg y

lemma normL2_nonneg (v : Vec) : 0 ≤ normL2 v := Real.sqrt_nonneg _

lemma eps_pos : (0 : ℝ) < eps := by norm_num [eps]

lemma denomPos (v : Vec) : 0 < normL2 v + eps :=
  add_pos_of_nonneg_of_pos (normL2_nonneg v) eps_pos

lemma norm2_map_div (v : Vec) (c : ℝ) :
    norm2 (v.map (fun x => x / c)) = norm2 v / (c * c) := by
  induction v with
  | nil => simp [norm2]
  | cons x xs ih =>
      simp only [norm2, List.map_cons, List.sum_cons] at ih ⊢
      rw [ih, div_mul_div_comm, div_add_div_same]

lemma normL2_l2norm (v : Vec) :
    normL2 (l2norm_np v) = normL2 v / (normL2 v + eps) := by
  have hc : 0 ≤ normL2 v + eps := (denomPos v).le
  rw [l2norm_np, normL2, norm2_map_div, Real.sqrt_div (norm2_nonneg v),
    Real.sqrt_mul_self hc]
  rfl

lemma normL2_l2norm_le_one (v : Vec) : normL2 (l2norm_np v) ≤ 1 := by
  rw [normL2_l2norm]
  exact (div_le_one (denomPos v)).mpr (le_add_of_nonneg_right eps_pos.le)

lemma normL2_l2norm_near_one (v : Vec) (h : 1 / 2 ≤ normL2 v) :
    1 - 2 * eps ≤ normL2 (l2norm_np v) := by
  rw [normL2_l2norm, le_div_iff₀ (denomPos v)]
  have he : eps ≤ 1 / 2 := by norm_num [eps]
  nlinarith [eps_pos, mul_le_mul_of_nonneg_left h eps_pos.le]

lemma takeFiltered_mem {dis : List String} {it : RankedItem} :
    ∀ (k : Int) (l : List StoredObject), it ∈ takeFiltered dis k l →
      ∃ o, o ∈ l ∧ it = mkItem o ∧ dis.contains o.uuid = false := by
  intro k l
  induction l generalizing k with
  | nil => intro h; simp [takeFiltered] at h
  | cons o rest ih =>
      intro h
      by_cases hd : dis.contains o.uuid
      · rw [takeFiltered, if_pos hd] at h
        obtain ⟨o', ho', rfl, hc⟩ := ih k h
        exact ⟨o', List.mem_cons_of_mem _ ho', rfl, hc⟩
      · rw [takeFiltered, if_neg hd] at h
        rcases List.mem_cons.mp h with h1 | h2
        · exact ⟨o, List.mem_cons_self _ _, h1, Bool.eq_false_iff.mpr hd⟩
        · by_cases hk : k ≤ 1
          · rw [if_pos hk] at h2; simp at h2
          · rw [if_neg hk] at h2
            obtain ⟨o', ho', rfl, hc⟩ := ih (k - 1) h2
            exact ⟨o', List.mem_cons_of_mem _ ho', rfl, hc⟩

lemma takeFiltered_length {dis : List String} :
    ∀ (k : Int) (l : List StoredObject), 1 ≤ k →
      ((takeFiltered dis k l).length : Int) ≤ k := by
  intro k l
  induction l generalizing k with
  | nil => intro hk; simp only [takeFiltered, List.length_nil, Nat.cast_zero]; omega
  | cons o rest ih =>
      intro hk
      by_cases hd : dis.contains o.uuid
      · rw [takeFiltered, if_pos hd]; exact ih k hk
      · rw [takeFiltered, if_neg hd]
        by_cases h1 : k ≤ 1
        · rw [if_pos h1]; simpa using hk
        · rw [if_neg h1]
          have := ih (k - 1) (by omega)
          simp only [List.length_cons]
          push_cast
          omega

lemma feedback_ok_inv {env : Env} {req : FeedbackRequest} {store : Option Vec}
    {resp : FeedbackResponse} {st' : Option Vec}
    (h : feedback env req store = (Except.ok resp, st')) :
    ∃ prev ranked, store = some prev ∧ noContent req = false ∧
      env.nearVector (vNewOf env req prev) = Except.ok ranked ∧
      resp = ⟨feedbackResults env req ranked, vNewOf env req prev,
              (vTurnOf env req).getD (vNewOf env req prev)⟩ ∧
      st' = some (vNewOf env req prev) := by
  unfold feedback at h
  split at h
  · simp at h
  · next hnc =>
    split at h
    · simp at h
    · next prev =>
      simp only at h
      split at h
      · simp at h
      · next ranked hq =>
        obtain ⟨h1, h2⟩ := Prod.mk.injEq .. ▸ h
        refine ⟨prev, ranked, rfl, Bool.not_eq_true _ ▸ hnc, hq, ?_, h2.symm⟩
        cases h1.symm
        rfl

lemma search_ok_inv {env : Env} {req : SearchRequest} {store : Option Vec}
    {resp : SearchResponse} {st' : Option Vec}
    (h : search env req store = (Except.ok resp, st')) :
    ∃ qv0 ranked, chooseQv? env req = some qv0 ∧
      env.nearVector (l2norm_np qv0) = Except.ok ranked ∧
      resp = ⟨((ranked.filter (objMatches
                ((firstSpeciesMatch (queryLowerOf req)).map (fun s => [s])))).take
                req.top_k.toNat).map mkItem, l2norm_np qv0⟩ ∧
      st' = some (l2norm_np qv0) := by
  unfold search at h
  split at h
  · simp at h
  · next qv0 hq =>
    simp only at h
    split at h
    · simp at h
    · next ranked hr =>
      obtain ⟨h1, h2⟩ := Prod.mk.injEq .. ▸ h
      refine ⟨qv0, ranked, hq, hr, ?_, h2.symm⟩
      cases h1.symm
      rfl

/-! ### Concrete fixtures for witnesses and counterexamples -/

/-- A stored object labelled "cat". -/
def oCat : StoredObject := ⟨"cat1", some 1, none, none, none, some "cat"⟩

/-- A stored object labelled "dog". -/
def oDog : StoredObject := ⟨"dog1", some 1, none, none, none, some "dog"⟩

/-- A stored object with no species label. -/
def oPlain : StoredObject := ⟨"obj1", some 1, none, none, none, none⟩

/-- Collaborators returning empty vectors and an empty index. -/
def envEmpty : Env := ⟨fun _ => [], fun _ => FetchOutcome.failure, fun _ => Except.ok []⟩

/-- Collaborators whose index ranks exactly the unlabelled object. -/
def envPlain : Env := ⟨fun _ => [], fun _ => FetchOutcome.failure, fun _ => Except.ok [oPlain]⟩

/-- Collaborators where id "A" fetches a "cat" item and the index ranks a cat
above a dog. -/
def envCat : Env :=
  ⟨fun _ => [],
   fun uid => if uid = "A" then FetchOutcome.found (some []) (some "cat")
              else FetchOutcome.failure,
   fun _ => Except.ok [oCat, oDog]⟩

/-- Collaborators whose index is down. -/
def envDown : Env := ⟨fun _ => [], fun _ => FetchOutcome.failure, fun _ => Except.error "down"⟩

/-- Down index, but the text encoder returns a 1-dimensional unit vector. -/
def envDown1 : Env :=
  ⟨fun _ => [(1 : ℝ)], fun _ => FetchOutcome.failure, fun _ => Except.error "down"⟩

/-- Collaborators whose index ranks exactly the dog object. -/
def envDog : Env := ⟨fun _ => [], fun _ => FetchOutcome.failure, fun _ => Except.ok [oDog]⟩

/-- Feedback request carrying only the text "x" (defaults otherwise). -/
def reqText : FeedbackRequest := ⟨"s", some "x", [], [], 1 / 2, 1 / 2, 2 / 5, 1 / 2, 20⟩

/-- Feedback request with no usable content. -/
def reqBlank : FeedbackRequest := ⟨"s", some " ", [], [], 1 / 2, 1 / 2, 2 / 5, 1 / 2, 20⟩

/-- Feedback request disliking "d", with top_k = 0. -/
def reqTopK0 : FeedbackRequest := ⟨"s", none, [], ["d"], 1 / 2, 1 / 2, 2 / 5, 1 / 2, 0⟩

/-- Feedback request disliking "d", with the default top_k. -/
def reqDis : FeedbackRequest := ⟨"s", none, [], ["d"], 1 / 2, 1 / 2, 2 / 5, 1 / 2, 20⟩

/-- Feedback request liking item "A". -/
def reqLikeA : FeedbackRequest := ⟨"s", none, ["A"], [], 1 / 2, 1 / 2, 2 / 5, 1 / 2, 20⟩

/-- Search request supplying BOTH a text and an image vector. -/
def sreqBoth : SearchRequest := ⟨"s", some "dog", some [(1 : ℝ)], 20⟩

/-- Search request supplying a zero image vector. -/
def sreqZero : SearchRequest := ⟨"s", none, some [(0 : ℝ)], 20⟩

/-- Search request with a query text containing the keyword "dog". -/
def sreqDog : SearchRequest := ⟨"s", some "a cute dog", none, 20⟩

/-- A fetch collaborator storing [1,0] under "A" and [0,1] under "B". -/
def exampleFetch : String → FetchOutcome := fun uid =>
  if uid = "A" then FetchOutcome.found (some [(1 : ℝ), 0]) none
  else if uid = "B" then FetchOutcome.found (some [(0 : ℝ), 1]) none
  else FetchOutcome.failure

/-! ### The claims -/

lemma collect_fst_eq (fetch : String → FetchOutcome) :
    ∀ l : List String, (collectFeedbackVectors fetch l).1 = fetchedVectors fetch l := by
  intro l
  induction l with
  | nil => rfl
  | cons uid rest ih =>
      by_cases hu : uid = ""
      · subst hu
        simpa [collectFeedbackVectors, fetchedVectors, List.filter_cons] using ih
      · cases hf : fetch uid with
        | failure =>
            simpa [collectFeedbackVectors, fetchedVectors, List.filter_cons, hu, hf] using ih
        | missing =>
            simpa [collectFeedbackVectors, fetchedVectors, List.filter_cons, hu, hf] using ih
        | found vec sp =>
            cases vec with
            | none =>
                simpa [collectFeedbackVectors, fetchedVectors, List.filter_cons, hu, hf] using ih
            | some v =>
                simp [collectFeedbackVectors, fetchedVectors, List.filter_cons, hu, hf,
                  List.filterMap_cons] at ih ⊢
                exact ih

/-- C3: for every feedback call the liked aggregate v_like equals the
spec-side rule: the arithmetic mean of the vectors of the liked ids that are
non-empty and fetch successfully (empty ids skipped silently, individual
failures skipped without aborting), with no renormalization at this stage,
and None when nothing was fetched; and on the spec's own example of stored
vectors [1,0] and [0,1] the aggregate is [0.5, 0.5]. -/
theorem c3 :
    (∀ (fetch : String → FetchOutcome) (ids : List String),
       vLikeOf fetch ids = vLikeSpec fetch ids) ∧
    vLikeOf exampleFetch ["A", "B"] = some [(1 : ℝ) / 2, 1 / 2] := by
  constructor
  · intro fetch ids
    simp only [vLikeOf, vLikeSpec, vecMean, collect_fst_eq fetch ids]
  · have h : vLikeOf exampleFetch ["A", "B"] =
        some (vecMean [[(1 : ℝ), 0], [(0 : ℝ), 1]]) := rfl
    rw [h]
    simp only [vecMean, vsum, smul, vadd, List.foldl, List.zipWith, List.map, List.length]
    norm_num

/-- C4: a feedback call with no usable content (blank-after-trim text and
both id lists empty) is rejected with the input error, a feedback call with
content but no previous vector is rejected with the distinct
precursor-missing error, and in either reject case the session slot is left
exactly as it was. -/
theorem c4 (env : Env) (req : FeedbackRequest) (store : Option Vec) :
    (noContent req = true →
       feedback env req store = (Except.error ApiError.inputError, store)) ∧
    (noContent req = false →
       feedback env req none = (Except.error ApiError.precursorMissing, none)) := by
  constructor
  · intro h; simp [feedback, h]
  · intro h; simp [feedback, h]

/-- The request with its gamma field replaced (all other fields kept). -/
def setGamma (req : FeedbackRequest) (g : ℝ) : FeedbackRequest :=
  ⟨req.session_id, req.feedback_text, req.liked_image_ids, req.disliked_image_ids,
   req.w_text, req.w_like, req.alpha, g, req.top_k⟩

/-- C5: gamma has no effect on feedback: two requests identical except for
gamma produce identical outcomes in full - the same response (results,
refined vector, turn vector) and the same persisted session vector. -/
theorem c5 (env : Env) (req : FeedbackRequest) (store : Option Vec) (g g' : ℝ) :
    feedback env (setGamma req g) store = feedback env (setGamma req g') store := rfl

lemma vTurn_eq_fuse (env : Env) (req : FeedbackRequest) :
    vTurnOf env req =
      fuseTurn req.w_text req.w_like (vTextOf env req)
        (vLikeOf env.fetch req.liked_image_ids) := by
  unfold vTurnOf fuseTurn
  cases vTextOf env req <;> cases vLikeOf env.fetch req.liked_image_ids <;> rfl

lemma vNew_eq_blend (env : Env) (req : FeedbackRequest) (prev : Vec) :
    vNewOf env req prev = blendHistory req.alpha prev (vTurnOf env req) := by
  unfold vNewOf blendHistory
  cases vTurnOf env req <;> rfl

lemma feedback_store_eq (env : Env) (req : FeedbackRequest) (prev : Vec)
    (h : noContent req = false) :
    (feedback env req (some prev)).2 = some (vNewOf env req prev) := by
  cases hq : env.nearVector (vNewOf env req prev) <;> simp [feedback, h, hq]

/-- C1: every feedback call that passes validation computes its turn vector
and new query vector by the spec's fusion-and-blend rule: the persisted
vector equals blendHistory applied to fuseTurn of the text and liked-mean
vectors, and when the call succeeds the response's refined vector and turn
vector equal the same blend (the turn slot falling back to the blend when no
turn vector exists). -/
theorem c1 (env : Env) (req : FeedbackRequest) (prev : Vec)
    (h : noContent req = false) :
    (feedback env req (some prev)).2 =
      some (blendHistory req.alpha prev
        (fuseTurn req.w_text req.w_like (vTextOf env req)
          (vLikeOf env.fetch req.liked_image_ids))) ∧
    ∀ resp, (feedback env req (some prev)).1 = Except.ok resp →
      resp.refined_vector =
        blendHistory req.alpha prev
          (fuseTurn req.w_text req.w_like (vTextOf env req)
            (vLikeOf env.fetch req.liked_image_ids)) ∧
      resp.turn_feedback_vector =
        (fuseTurn req.w_text req.w_like (vTextOf env req)
          (vLikeOf env.fetch req.liked_image_ids)).getD
          (blendHistory req.alpha prev
            (fuseTurn req.w_text req.w_like (vTextOf env req)
              (vLikeOf env.fetch req.liked_image_ids))) := by
  have hv : vNewOf env req prev =
      blendHistory req.alpha prev
        (fuseTurn req.w_text req.w_like (vTextOf env req)
          (vLikeOf env.fetch req.liked_image_ids)) := by
    rw [vNew_eq_blend, vTurn_eq_fuse]
  constructor
  · rw [feedback_store_eq env req prev h, hv]
  · intro resp hr
    have h' : feedback env req (some prev) =
        (Except.ok resp, (feedback env req (some prev)).2) := by rw [← hr]
    obtain ⟨prev', ranked, hp, _, _, hresp, _⟩ := feedback_ok_inv h'
    cases Option.some.inj hp
    subst hresp
    exact ⟨hv, by rw [vTurn_eq_fuse, hv]⟩

/-- Witness for C1 at a concrete text-only feedback call. -/
theorem c1_witness :
    (feedback envEmpty reqText (some [])).2 =
      some (blendHistory reqText.alpha []
        (fuseTurn reqText.w_text reqText.w_like (vTextOf envEmpty reqText)
          (vLikeOf envEmpty.fetch reqText.liked_image_ids))) :=
  (c1 envEmpty reqText [] (by decide)).1

/-- C2 (amended): in every successful feedback call no disliked id appears
in the results, the result count is at most top_k whenever top_k >= 1 (the
append-then-check loop can return one item when top_k <= 0), and the
re-query over-fetch limit is exactly top_k + 2 * |dislikedIds|. -/
theorem c2 (env : Env) (req : FeedbackRequest) (prev : Vec)
    (resp : FeedbackResponse) (st' : Option Vec)
    (h : feedback env req (some prev) = (Except.ok resp, st')) :
    (∀ it ∈ resp.results, req.disliked_image_ids.contains it.id = false) ∧
    (1 ≤ req.top_k → (resp.results.length : Int) ≤ req.top_k) ∧
    feedbackFetchLimit req = req.top_k + 2 * (req.disliked_image_ids.length : Int) := by
  obtain ⟨prev', ranked, _, _, _, hresp, _⟩ := feedback_ok_inv h
  subst hresp
  refine ⟨?_, ?_, by unfold feedbackFetchLimit; ring⟩
  · intro it hit
    simp only [feedbackResults] at hit
    obtain ⟨o, _, rfl, hc⟩ := takeFiltered_mem _ _ hit
    simpa [mkItem] using hc
  · intro hk
    simpa [feedbackResults] using takeFiltered_length req.top_k _ hk

/-- The concrete successful run used by the C2 witness. -/
def respDis : FeedbackResponse := ⟨[mkItem oPlain], [], []⟩

/-- Witness for C2 at a concrete call disliking one id. -/
theorem c2_witness :
    reqDis.disliked_image_ids.contains (mkItem oPlain).id = false ∧
    ((respDis.results.length : Int) ≤ reqDis.top_k) := by
  have h := c2 envPlain reqDis [] respDis (some []) rfl
  exact ⟨h.1 (mkItem oPlain) (by simp [respDis]), h.2.1 (by decide)⟩

/-- Counterexample to C2 as stated: with top_k = 0 and one disliked id the
loop still returns one item, so the result list exceeds top_k. -/
theorem c2_cex :
    (feedback envPlain reqTopK0 (some [])).1 =
      Except.ok (⟨[mkItem oPlain], [], []⟩ : FeedbackResponse) ∧
    reqTopK0.top_k = 0 ∧
    ¬ ((([mkItem oPlain] : List RankedItem).length : Int) ≤ reqTopK0.top_k) :=
  ⟨rfl, rfl, by decide⟩

/-- C6: whenever the liked items yield a non-empty species set, every item a
successful feedback call returns carries one of those species labels; items
of any other category are excluded by the re-query filter. -/
theorem c6 (env : Env) (req : FeedbackRequest) (prev : Vec)
    (resp : FeedbackResponse) (st' : Option Vec)
    (h : feedback env req (some prev) = (Except.ok resp, st'))
    (hsp : likedSpeciesOf env.fetch req.liked_image_ids ≠ []) :
    ∀ it ∈ resp.results,
      ∃ s ∈ likedSpeciesOf env.fetch req.liked_image_ids, it.species = some s := by
  obtain ⟨prev', ranked, _, _, _, hresp, _⟩ := feedback_ok_inv h
  subst hresp
  intro it hit
  simp only [feedbackResults] at hit
  obtain ⟨o, ho, rfl, _⟩ := takeFiltered_mem _ _ hit
  have hmatch := List.of_mem_filter (List.take_subset _ _ ho)
  unfold feedbackFilter at hmatch
  rw [if_neg (by simpa [List.isEmpty_iff] using hsp)] at hmatch
  unfold objMatches at hmatch
  cases hsOpt : o.species with
  | none => rw [hsOpt] at hmatch; simp at hmatch
  | some s =>
      rw [hsOpt] at hmatch
      exact ⟨s, by simpa [List.contains, List.elem_iff] using hmatch, by simp [mkItem, hsOpt]⟩

/-- Witness for C6 at a concrete call liking a "cat" item, with a dog in the
index that the filter removes. -/
theorem c6_witness :
    ∃ s ∈ likedSpeciesOf envCat.fetch reqLikeA.liked_image_ids,
      (mkItem oCat).species = some s :=
  c6 envCat reqLikeA [] ⟨[mkItem oCat], [], []⟩ (some []) rfl (by decide)
    (mkItem oCat) (by simp)

/-- C7 (amended): feedback persists V_new BEFORE the re-query, so when the
re-query fails the error is surfaced but the session slot already holds
V_new, not V_prev. -/
theorem c7 (env : Env) (req : FeedbackRequest) (prev : Vec) (e : String)
    (h1 : noContent req = false)
    (h2 : env.nearVector (vNewOf env req prev) = Except.error e) :
    feedback env req (some prev) =
      (Except.error (ApiError.queryError e), some (vNewOf env req prev)) := by
  simp [feedback, h1, h2]

/-- Witness for C7 at a concrete failing re-query. -/
theorem c7_witness :
    feedback envDown reqText (some []) =
      (Except.error (ApiError.queryError "down"), some (vNewOf envDown reqText [])) :=
  c7 envDown reqText [] "down" (by decide) rfl

/-- Counterexample to C7 as stated: a failing re-query surfaces the error,
yet the session slot no longer holds V_prev = [0]. -/
theorem c7_cex :
    (feedback envDown1 reqText (some [(0 : ℝ)])).1 =
      Except.error (ApiError.queryError "down") ∧
    (feedback envDown1 reqText (some [(0 : ℝ)])).2 ≠ some [(0 : ℝ)] := by
  refine ⟨rfl, ?_⟩
  intro hcontra
  have hv : (feedback envDown1 reqText (some [(0 : ℝ)])).2 =
      some (vNewOf envDown1 reqText [(0 : ℝ)]) := rfl
  rw [hv] at hcontra
  have h2 := Option.some.inj hcontra
  have h3 : vNewOf envDown1 reqText [(0 : ℝ)] =
      l2norm_np (vadd (smul (1 - reqText.alpha) [(0 : ℝ)])
        (smul reqText.alpha (l2norm_np [(1 : ℝ)]))) := rfl
  rw [h3] at h2
  have hL : vadd (smul (1 - reqText.alpha) [(0 : ℝ)])
      (smul reqText.alpha (l2norm_np [(1 : ℝ)])) =
      [reqText.alpha * (1 / (normL2 [(1 : ℝ)] + eps))] := by
    simp [vadd, smul, l2norm_np]
  rw [hL] at h2
  have hcomp : reqText.alpha * (1 / (normL2 [(1 : ℝ)] + eps)) /
      (normL2 [reqText.alpha * (1 / (normL2 [(1 : ℝ)] + eps))] + eps) = 0 := by
    have hh := congrArg (fun l : Vec => l.headD 1) h2
    simpa [l2norm_np] using hh
  have ha : (0 : ℝ) < reqText.alpha * (1 / (normL2 [(1 : ℝ)] + eps)) :=
    mul_pos (by norm_num [reqText]) (one_div_pos.mpr (denomPos _))
  rcases div_eq_zero_iff.mp hcomp with h5 | h5
  · exact absurd h5 (ne_of_gt ha)
  · exact absurd h5 (ne_of_gt (denomPos _))

/-- C8 (amended): every vector the two endpoints write into the session slot
is either the value already stored or of the form l2norm_np u; the norm of
l2norm_np u never exceeds 1, and is within 2e-12 of 1 whenever the
pre-normalization norm is at least 1/2 (in particular when the unit-norm
convention of the collaborators holds) - but a zero pre-normalization
vector yields a stored zero vector, so the claim's unconditional unit-norm
statement needs that proviso. -/
theorem c8 :
    (∀ (env : Env) (req : SearchRequest) (store : Option Vec) resp st',
       search env req store = (Except.ok resp, st') → ∃ u, st' = some (l2norm_np u)) ∧
    (∀ (env : Env) (req : FeedbackRequest) (store : Option Vec),
       (feedback env req store).2 = store ∨
       ∃ u, (feedback env req store).2 = some (l2norm_np u)) ∧
    (∀ v : Vec, normL2 (l2norm_np v) ≤ 1) ∧
    (∀ v : Vec, 1 / 2 ≤ normL2 v → 1 - 2 * eps ≤ normL2 (l2norm_np v)) := by
  refine ⟨?_, ?_, normL2_l2norm_le_one, normL2_l2norm_near_one⟩
  · intro env req store resp st' h
    obtain ⟨qv0, ranked, _, _, _, hst⟩ := search_ok_inv h
    exact ⟨qv0, hst⟩
  · intro env req store
    by_cases hnc : noContent req = true
    · left; simp [feedback, hnc]
    · cases store with
      | none => left; simp [feedback, hnc]
      | some prev =>
        have hfalse : noContent req = false := Bool.not_eq_true _ ▸ hnc
        have h2 := feedback_store_eq env req prev hfalse
        cases hvt : vTurnOf env req with
        | none =>
            left
            rw [h2]
            unfold vNewOf
            rw [hvt]
        | some vt =>
            right
            refine ⟨vadd (smul (1 - req.alpha) prev) (smul req.alpha vt), ?_⟩
            rw [h2]
            unfold vNewOf
            rw [hvt]

/-- Counterexample to C8 as stated: a search with a zero image query vector
writes a vector of norm 0 into the slot, far outside any unit tolerance. -/
theorem c8_cex :
    (search envEmpty sreqZero none).2 = some (l2norm_np [(0 : ℝ)]) ∧
    normL2 (l2norm_np [(0 : ℝ)]) = 0 ∧
    normL2 (l2norm_np [(0 : ℝ)]) < 1 - 2 * eps := by
  have h0 : l2norm_np [(0 : ℝ)] = [(0 : ℝ)] := by simp [l2norm_np]
  have hn : normL2 (l2norm_np [(0 : ℝ)]) = 0 := by
    rw [h0]; simp [normL2, norm2]
  exact ⟨rfl, hn, by rw [hn]; norm_num [eps]⟩

/-- Python truthiness of the optional query text. -/
def optStrTruthy : Option String → Bool
  | none => false
  | some s => strTruthy s

lemma chooseQv_none_iff (env : Env) (req : SearchRequest) :
    chooseQv? env req = none ↔
      (req.query_image_vector = none ∧ optStrTruthy req.query_text = false) := by
  unfold chooseQv? optStrTruthy
  cases req.query_image_vector with
  | some v => simp
  | none =>
      cases req.query_text with
      | none => simp
      | some s =>
          by_cases ht : strTruthy s = true
          · simp [ht]
          · simp [ht, Bool.not_eq_true _ ▸ ht]

/-- C9 (amended): a search request errors with the input error exactly when
NEITHER query_text nor query_image_vector is usable; when both are supplied
the request is NOT rejected - the image vector silently wins. -/
theorem c9 (env : Env) (req : SearchRequest) (store : Option Vec) :
    ((search env req store).1 = Except.error ApiError.inputError ↔
      (req.query_image_vector = none ∧ optStrTruthy req.query_text = false)) ∧
    ∀ v, req.query_image_vector = some v → chooseQv? env req = some v := by
  constructor
  · constructor
    · intro h
      cases hq : chooseQv? env req with
      | none => exact (chooseQv_none_iff env req).mp hq
      | some qv0 =>
          exfalso
          cases hr : env.nearVector (l2norm_np qv0) <;> simp [search, hq, hr] at h
    · intro hcase
      have hq : chooseQv? env req = none := (chooseQv_none_iff env req).mpr hcase
      simp [search, hq]
  · intro v hv
    unfold chooseQv?
    rw [hv]

/-- Counterexample to C9 as stated: a request supplying BOTH query_text and
query_image_vector succeeds instead of being rejected. -/
theorem c9_cex :
    isOkE (search envEmpty sreqBoth none).1 = true ∧
    sreqBoth.query_image_vector = some [(1 : ℝ)] ∧
    optStrTruthy sreqBoth.query_text = true :=
  ⟨rfl, rfl, rfl⟩

/-- C10: plain search lowercases the query text and scans the fixed keyword
table; no match means no filter is applied (the results are the plain
ranked prefix), while a first match at species sp silently restricts the
query so that every returned item carries species sp. -/
theorem c10 :
    (∀ q, firstSpeciesMatch q = none ↔
       ∀ kv ∈ speciesKeywords, pyContains q kv.1 = false) ∧
    (∀ q sp, firstSpeciesMatch q = some sp →
       ∃ kv ∈ speciesKeywords, pyContains q kv.1 = true ∧ kv.2 = sp) ∧
    (∀ (env : Env) (req : SearchRequest) (store : Option Vec) resp st',
       search env req store = (Except.ok resp, st') →
       (firstSpeciesMatch (queryLowerOf req) = none →
          ∃ ranked, env.nearVector resp.used_vector = Except.ok ranked ∧
            resp.results = (ranked.take req.top_k.toNat).map mkItem) ∧
       (∀ sp, firstSpeciesMatch (queryLowerOf req) = some sp →
          (∃ ranked, env.nearVector resp.used_vector = Except.ok ranked ∧
             resp.results = ((ranked.filter (fun o => objMatches (some [sp]) o)).take
               req.top_k.toNat).map mkItem) ∧
          ∀ it ∈ resp.results, it.species = some sp)) := by
  refine ⟨?_, ?_, ?_⟩
  · intro q
    simp only [firstSpeciesMatch, Option.map_eq_none', List.find?_eq_none, Bool.not_eq_true]
  · intro q sp hsp
    unfold firstSpeciesMatch at hsp
    rw [Option.map_eq_some'] at hsp
    obtain ⟨kv, hfind, hkv2⟩ := hsp
    refine ⟨kv, List.mem_of_find?_eq_some hfind, ?_, hkv2⟩
    simpa using List.find?_some hfind
  · intro env req store resp st' h
    obtain ⟨qv0, ranked, _, hq, hresp, _⟩ := search_ok_inv h
    subst hresp
    constructor
    · intro hnone
      refine ⟨ranked, hq, ?_⟩
      rw [hnone]
      show ((ranked.filter (objMatches none)).take req.top_k.toNat).map mkItem =
        (ranked.take req.top_k.toNat).map mkItem
      have hfilt : ranked.filter (objMatches none) = ranked :=
        List.filter_eq_self.mpr (fun a _ => rfl)
      rw [hfilt]
    · intro sp hsp
      constructor
      · exact ⟨ranked, hq, by rw [hsp]; rfl⟩
      · intro it hit
        rw [hsp] at hit
        obtain ⟨o, ho, rfl⟩ := List.mem_map.mp hit
        have hmatch := List.of_mem_filter (List.take_subset _ _ ho)
        cases hso : o.species with
        | none => simp [objMatches, hso] at hmatch
        | some s =>
            simp [objMatches, hso] at hmatch
            simp [mkItem, hso, hmatch]

/-- The concrete successful search used by the C10 witness. -/
def respDog : SearchResponse := ⟨[mkItem oDog], []⟩

/-- Witness for C10 at a concrete query "a cute dog": the keyword "dog"
matches and the returned item carries species "dog". -/
theorem c10_witness : (mkItem oDog).species = some "dog" :=
  ((c10.2.2 envDog sreqDog none respDog (some []) rfl).2 "dog" rfl).2
    (mkItem oDog) (by simp [respDog])

end

end ImageRetrieval
